import Mathlib

/-
  Verification of libmysql/authentication_win/common.h (Windows SSO
  authentication plugin support classes) against its design specification.

  Shallow embedding conventions:
  - Memory is modelled as a flat byte store `mem : Nat → Nat` passed
    explicitly where a function dereferences a pointer; a pointer is a
    `Nat` address with `NULL = 0`, or an `Option` when the code checks it
    against NULL.
  - Functions declared in the header but whose bodies are not part of the
    available source (Connection::write/read, the Sid and UPN constructors,
    Sid::is_valid, Sid::operator==, and the handshake engine) are modelled
    from the specification; each such definition carries a doc comment
    starting with "Modelled from the spec:".
-/

/-- The C NULL address. -/
def NULL : Nat := 0

/-- Bytes are natural numbers (values of C type `unsigned char`). -/
abbrev byte := Nat


/-! ## Blob class (common.h lines 132-170)

A non-owning (pointer, length) descriptor over a byte region. -/

structure Blob where
  m_ptr : Nat
  m_len : Nat
deriving DecidableEq, Repr

/-- Default constructor `Blob(): m_ptr(NULL), m_len(0)`. -/
def Blob.default : Blob := ⟨NULL, 0⟩

/-- Constructor `Blob(const byte *ptr, const size_t len)`. -/
def Blob.ofPtrLen (ptr : Nat) (len : Nat) : Blob := ⟨ptr, len⟩

/-- Accessor `byte* ptr() const`. -/
def Blob.ptr (b : Blob) : Nat := b.m_ptr

/-- Accessor `size_t len() const`. -/
def Blob.len (b : Blob) : Nat := b.m_len

/-- Operator `byte operator[](unsigned pos) const`:
`return pos < len() ? m_ptr[pos] : 0x00;`.
The read of `m_ptr[pos]` is a load from the byte store at address
`m_ptr + pos`, hence the explicit `mem` argument. -/
def Blob.index (mem : Nat → byte) (b : Blob) (pos : Nat) : byte :=
  if pos < b.len then mem (b.m_ptr + pos) else 0x00

/-- Predicate `bool is_null() const`: `return m_ptr == NULL;`. -/
def Blob.is_null (b : Blob) : Bool :=
  b.m_ptr == NULL


/-! ## Connection class (common.h lines 180-200)

Wrapper around MYSQL_PLUGIN_VIO providing read/write with a sticky error
code.  Only `error()` has its body in the header; the constructor and
`write`/`read` are modelled from the spec.  The transport outcome of each
call is passed in explicitly (`tr`): the transport is an external
collaborator. -/

structure Connection where
  m_vio : Nat
  m_error : Int
deriving DecidableEq, Repr

/-- Modelled from the spec: the constructor `Connection(MYSQL_PLUGIN_VIO*)`
(body not in the available source) binds the adapter to one externally
owned transport handle and starts healthy (error code zero). -/
def Connection.construct (vio : Nat) : Connection := ⟨vio, 0⟩

/-- Accessor `int error() const`: `return m_error;`. -/
def Connection.error (c : Connection) : Int := c.m_error

/-- Modelled from the spec: `int write(const Blob&)` (body not in the
available source).  `tr` is the transport's result code for this call
(0 = success, nonzero = failure).  Returns (result code, updated
connection, whether transport I/O was performed).  On failure the nonzero
code is recorded in the sticky error; once the sticky error is nonzero
every call fails fast without touching the transport. -/
def Connection.write (c : Connection) (tr : Int) : Int × Connection × Bool :=
  if c.m_error ≠ 0 then (c.m_error, c, false)
  else if tr = 0 then (0, c, true)
  else (tr, { c with m_error := tr }, true)

/-- Modelled from the spec: `Blob read()` (body not in the available
source).  `tr` is the transport's outcome: `some b` delivers one complete
framed message, `none` is a transport failure.  Returns (returned view,
updated connection, whether transport I/O was performed).  On transport
failure an empty/null view is returned and the sticky error is set to a
nonzero code (the concrete code is unspecified; -1 is used here); with a
nonzero sticky error the call fails fast without touching the transport. -/
def Connection.read (c : Connection) (tr : Option Blob) : Blob × Connection × Bool :=
  if c.m_error ≠ 0 then (Blob.default, c, false)
  else
    match tr with
    | some b => (b, c, true)
    | none => (Blob.default, { c with m_error := -1 }, true)

/-! ## Sid class (common.h lines 209-249)

Windows security identifiers.  `is_group`, `is_user` and `operator PSID`
have their bodies in the header; the constructors, `is_valid` and
`operator==` are declared only and are modelled from the spec. -/

/-- The Windows `SID_NAME_USE` enumeration (entity-type classification). -/
inductive SID_NAME_USE where
  | SidTypeUser
  | SidTypeGroup
  | SidTypeDomain
  | SidTypeAlias
  | SidTypeWellKnownGroup
  | SidTypeDeletedAccount
  | SidTypeInvalid
  | SidTypeUnknown
  | SidTypeComputer
  | SidTypeLabel
deriving DecidableEq, Repr, BEq

/-- The Windows `SID_AND_ATTRIBUTES` structure; the `Sid` field is the raw
identity blob the `PSID` member points to, modelled as its byte contents. -/
structure SID_AND_ATTRIBUTES where
  Sid : List byte
  Attributes : Nat
deriving DecidableEq, Repr

/-- The Windows `TOKEN_USER` structure. -/
structure TOKEN_USER where
  User : SID_AND_ATTRIBUTES
deriving DecidableEq, Repr

structure Sid where
  /-- `TOKEN_USER *m_data`; `none` models a NULL pointer. -/
  m_data : Option TOKEN_USER
  /-- `SID_NAME_USE m_type`. -/
  m_type : SID_NAME_USE
deriving DecidableEq, Repr

/-- Modelled from the spec: `bool is_valid(void) const` is declared but its
body is not in the available source; the spec says it is true only if
resolution succeeded, i.e. iff the identity blob was obtained. -/
def Sid.is_valid (s : Sid) : Bool := s.m_data.isSome

/-- Predicate `bool is_group(void) const`:
`return m_type == SidTypeGroup || m_type == SidTypeWellKnownGroup || m_type == SidTypeAlias;`. -/
def Sid.is_group (s : Sid) : Bool :=
  s.m_type == SID_NAME_USE.SidTypeGroup
  || s.m_type == SID_NAME_USE.SidTypeWellKnownGroup
  || s.m_type == SID_NAME_USE.SidTypeAlias

/-- Predicate `bool is_user(void) const`: `return m_type == SidTypeUser;`. -/
def Sid.is_user (s : Sid) : Bool :=
  s.m_type == SID_NAME_USE.SidTypeUser

/-- Modelled from the spec: `bool operator==(const Sid&)` is declared but
its body is not in the available source; the spec defines equality as
platform-level identity-blob equality between two valid identities, and
always false when either operand is invalid (never a crash). -/
def Sid.opEq (a b : Sid) : Bool :=
  match a.m_data, b.m_data with
  | some x, some y => x.User.Sid == y.User.Sid
  | _, _ => false

/-- Conversion `operator PSID() const`: `return (PSID)m_data->User.Sid;`.
The dereference of `m_data` is modelled on `Option`: a NULL `m_data` has
no defined result (`none`); otherwise the stored blob is returned as a
read-only view, with no copy and no ownership transfer. -/
def Sid.operatorPSID (s : Sid) : Option (List byte) :=
  match s.m_data with
  | none => none
  | some d => some d.User.Sid

/-- Modelled from the spec: the constructor `Sid(const wchar_t*)` (body not
in the available source) resolves the platform identity for an account
name.  The platform lookup (an external collaborator) is passed in as
`lookup`; the name is a wide-character string modelled as its code list.
An empty name or a failed lookup yields an invalid identity (NULL
`m_data`, unknown entity type); no exception is raised. -/
def Sid.fromAccountName (lookup : List Nat → Option (TOKEN_USER × SID_NAME_USE))
    (name : List Nat) : Sid :=
  if name = [] then ⟨none, SID_NAME_USE.SidTypeUnknown⟩
  else
    match lookup name with
    | none => ⟨none, SID_NAME_USE.SidTypeUnknown⟩
    | some (d, t) => ⟨some d, t⟩

/-- Modelled from the spec: the constructor `Sid(HANDLE sec_token)` (body
not in the available source) resolves the identity bound to an access
token.  The platform query is passed in as `lookup`; the handle is an
address, `0` being the NULL handle.  A NULL handle or a failed query
(an invalid handle) yields an invalid identity; no exception is raised. -/
def Sid.fromToken (lookup : Nat → Option (TOKEN_USER × SID_NAME_USE))
    (handle : Nat) : Sid :=
  if handle = NULL then ⟨none, SID_NAME_USE.SidTypeUnknown⟩
  else
    match lookup handle with
    | none => ⟨none, SID_NAME_USE.SidTypeUnknown⟩
    | some (d, t) => ⟨some d, t⟩


/-! ## UPN class (common.h lines 259-284)

User Principal Name of the current process.  `is_valid`, `as_blob` and
`as_string` have their bodies in the header; the constructor is modelled
from the spec. -/

structure UPN where
  /-- `char *m_buf`: address of the UTF-8 representation (`NULL = 0`). -/
  m_buf : Nat
  /-- `size_t m_len`: length of the name. -/
  m_len : Nat
deriving DecidableEq, Repr

/-- Predicate `bool is_valid() const`: `return m_len > 0;`. -/
def UPN.is_valid (u : UPN) : Bool := decide (0 < u.m_len)

/-- Conversion `const Blob as_blob() const`:
`return m_len ? Blob((byte*)m_buf, m_len) : Blob();`. -/
def UPN.as_blob (u : UPN) : Blob :=
  if u.m_len ≠ 0 then Blob.ofPtrLen u.m_buf u.m_len else Blob.default

/-- Accessor `const char* as_string() const`: `return (const char*)m_buf;`. -/
def UPN.as_string (u : UPN) : Nat := u.m_buf

/-- Modelled from the spec: the constructor `UPN()` (body not in the
available source) queries the platform for the current process's
principal name and converts it to UTF-8.  `resolved` is the platform's
answer (`none` when no principal name can be resolved); `buf` is the
address of the buffer holding the converted bytes.  On failure nothing is
stored: NULL buffer and zero length. -/
def UPN.construct (buf : Nat) (resolved : Option (List byte)) : UPN :=
  match resolved with
  | none => ⟨NULL, 0⟩
  | some bs => ⟨buf, bs.length⟩

/-! ## Handshake Engine (spec section 4.5)

The handshake engine is not part of the available source (only its
support classes are); its state machine and token-exchange loop are
modelled from the spec. -/

/-- Modelled from the spec: the negotiation states of a handshake
session. -/
inductive HState where
  | NotStarted
  | InProgress
  | Completed
  | Failed
deriving DecidableEq, Repr

/-- Modelled from the spec: the events driving one transition of the
handshake session.  `primDone idEqual` is the platform negotiation
primitive reporting successful completion, together with the outcome of
the subsequent identity check (`idEqual` is true iff the resolved peer
identity equals the caller-supplied expected identity; false also covers
an unresolved peer identity). -/
inductive HEvent where
  | start
  | primContinue
  | primFatal
  | chanError
  | primDone (idEqual : Bool)
deriving DecidableEq, Repr

/-- Modelled from the spec: one transition of the handshake session state
machine.  `NotStarted → InProgress` on start; while `InProgress`, a
`continue` report keeps the loop going, a fatal negotiation error or a
nonzero channel error fails the session, and successful completion leads
to `Completed` exactly when the identity check passes.  The terminal
states `Completed` and `Failed` admit no outgoing transition. -/
def hstep (s : HState) (e : HEvent) : HState :=
  match s, e with
  | HState.NotStarted, HEvent.start => HState.InProgress
  | HState.InProgress, HEvent.primContinue => HState.InProgress
  | HState.InProgress, HEvent.primFatal => HState.Failed
  | HState.InProgress, HEvent.chanError => HState.Failed
  | HState.InProgress, HEvent.primDone idEqual =>
      if idEqual then HState.Completed else HState.Failed
  | s, _ => s

/-- Modelled from the spec: the successive status reports of the platform
negotiation primitive (each possibly accompanied by an outbound token). -/
inductive NegStatus where
  | sspiContinue
  | sspiDone
  | sspiFatal
deriving DecidableEq, Repr

/-- A channel operation performed by the engine through the Connection. -/
inductive ChanOp where
  | writeOp
  | readOp
deriving DecidableEq, Repr

/-- Modelled from the spec: the InProgress token-exchange loop of the
handshake engine, in the client role, after the initial principal-name
message has been sent.  The primitive's successive reports are given as a
finite script.  Each `continue` report causes one exchange: the produced
outbound token is written and the next inbound token is read and fed back
to the primitive.  Returns the list of channel operations performed and
whether the loop reached the identity check (i.e. the primitive reported
done); a fatal report, or an exhausted script (the channel failing to
deliver further tokens), ends the loop without reaching the check. -/
def handshakeLoop : List NegStatus → List ChanOp × Bool
  | [] => ([], false)
  | NegStatus.sspiDone :: _ => ([], true)
  | NegStatus.sspiFatal :: _ => ([], false)
  | NegStatus.sspiContinue :: rest =>
      let r := handshakeLoop rest
      (ChanOp.writeOp :: ChanOp.readOp :: r.1, r.2)

/-! ## Claims -/

/-- C5: Blob positional access is total with a zero sentinel: for every
Blob `b` (over any byte store `mem`) and every index `pos`, `b[pos]`
returns the byte stored at offset `pos` (the store's content at address
`m_ptr + pos`) when `pos < b.len()`, and returns `0x00` when
`pos ≥ b.len()`; the access is a total function, so it never fails. -/
theorem C5_blob_index_total (mem : Nat → byte) (b : Blob) (pos : Nat) :
    (pos < b.len → Blob.index mem b pos = mem (b.m_ptr + pos))
    ∧ (b.len ≤ pos → Blob.index mem b pos = 0x00) := by
  constructor
  · intro h
    simp [Blob.index, h]
  · intro h
    simp [Blob.index, Nat.not_lt.mpr h]

/-- Witness for C5 at a concrete store, blob and index: offset 1 of a
blob of length 2 based at address 3 reads address 4; offset 5 is out of
range and reads the zero sentinel. -/
theorem C5_blob_index_total_witness :
    Blob.index (fun a => a + 10) (Blob.mk 3 2) 1 = 14
    ∧ Blob.index (fun a => a + 10) (Blob.mk 3 2) 5 = 0x00 :=
  ⟨(C5_blob_index_total (fun a => a + 10) (Blob.mk 3 2) 1).1 (by decide),
   (C5_blob_index_total (fun a => a + 10) (Blob.mk 3 2) 5).2 (by decide)⟩

/-- C8: a default-constructed Blob has a null base pointer, zero length
and `is_null() = true`; `is_null()` is true exactly when the base pointer
is NULL, independently of the length; hence a Blob constructed from a
non-null pointer with length 0 is not reported as null. -/
theorem C8_blob_null (b : Blob) (ptr len : Nat) :
    (Blob.default.m_ptr = NULL ∧ Blob.default.m_len = 0
       ∧ Blob.default.is_null = true)
    ∧ (b.is_null = true ↔ b.m_ptr = NULL)
    ∧ (ptr ≠ NULL → (Blob.ofPtrLen ptr len).is_null = false) := by
  refine ⟨⟨rfl, rfl, rfl⟩, ?_, ?_⟩
  · simp [Blob.is_null]
  · intro h
    simp [Blob.is_null, Blob.ofPtrLen, h]

/-- Witness for C8 at a concrete blob: address 7 with length 0 is not
null, and the default blob is null. -/
theorem C8_blob_null_witness :
    (Blob.ofPtrLen 7 0).is_null = false ∧ Blob.default.is_null = true :=
  ⟨(C8_blob_null Blob.default 7 0).2.2 (by decide),
   (C8_blob_null Blob.default 7 0).1.2.2⟩

/-- C9: `operator PSID` dereferences the internal `m_data` pointer: its
result is defined exactly when `m_data` is non-null (the Sid is valid),
and in that case it is exactly the stored identity blob
`m_data->User.Sid`, unchanged. -/
theorem C9_operator_psid (s : Sid) :
    (s.operatorPSID.isSome ↔ s.m_data.isSome)
    ∧ (∀ d, s.m_data = some d → s.operatorPSID = some d.User.Sid) := by
  cases hd : s.m_data with
  | none => exact ⟨by simp [Sid.operatorPSID, hd], fun d h => by simp [hd] at h⟩
  | some d =>
      refine ⟨by simp [Sid.operatorPSID, hd], fun e h => ?_⟩
      cases h
      simp [Sid.operatorPSID, hd]

/-- Witness for C9 at a concrete valid Sid holding blob [1, 2, 3]. -/
theorem C9_operator_psid_witness :
    (Sid.mk (some (TOKEN_USER.mk (SID_AND_ATTRIBUTES.mk [1, 2, 3] 0)))
        SID_NAME_USE.SidTypeUser).operatorPSID = some [1, 2, 3] :=
  (C9_operator_psid _).2 (TOKEN_USER.mk (SID_AND_ATTRIBUTES.mk [1, 2, 3] 0)) rfl

/-- C10: `is_group()` and `is_user()` are mutually exclusive: both are
computed from the single stored `m_type` value, and the group set
(SidTypeGroup, SidTypeWellKnownGroup, SidTypeAlias) excludes SidTypeUser,
so no Sid reports both. -/
theorem C10_group_user_exclusive (s : Sid) :
    (s.is_group && s.is_user) = false := by
  cases s with
  | mk d t => cases t <;> rfl

/-- C1: Sid equality is reflexive on valid identities and conservative on
invalid ones: every valid Sid equals itself, and whenever at least one
operand is invalid (including both), `operator==` returns false; it is a
total function, so it never crashes or throws. -/
theorem C1_sid_eq_reflexive_conservative :
    (∀ s : Sid, s.is_valid = true → Sid.opEq s s = true)
    ∧ (∀ a b : Sid, a.is_valid = false ∨ b.is_valid = false →
        Sid.opEq a b = false) := by
  constructor
  · intro s h
    cases hd : s.m_data with
    | none => rw [Sid.is_valid, hd] at h; simp at h
    | some x => simp [Sid.opEq, hd]
  · intro a b h
    cases ha : a.m_data with
    | none => cases hb : b.m_data <;> simp [Sid.opEq, ha]
    | some x =>
        cases hb : b.m_data with
        | none => simp [Sid.opEq, ha, hb]
        | some y =>
            exfalso
            rcases h with h | h
            · rw [Sid.is_valid, ha] at h; simp at h
            · rw [Sid.is_valid, hb] at h; simp at h

/-- Witness for C1: a concrete valid Sid equals itself, and a concrete
invalid Sid does not equal itself. -/
theorem C1_sid_eq_witness :
    Sid.opEq (Sid.mk (some (TOKEN_USER.mk (SID_AND_ATTRIBUTES.mk [1, 5] 0)))
        SID_NAME_USE.SidTypeUser)
      (Sid.mk (some (TOKEN_USER.mk (SID_AND_ATTRIBUTES.mk [1, 5] 0)))
        SID_NAME_USE.SidTypeUser) = true
    ∧ Sid.opEq (Sid.mk none SID_NAME_USE.SidTypeUnknown)
        (Sid.mk none SID_NAME_USE.SidTypeUnknown) = false :=
  ⟨C1_sid_eq_reflexive_conservative.1
      (Sid.mk (some (TOKEN_USER.mk (SID_AND_ATTRIBUTES.mk [1, 5] 0)))
        SID_NAME_USE.SidTypeUser) rfl,
   C1_sid_eq_reflexive_conservative.2
      (Sid.mk none SID_NAME_USE.SidTypeUnknown)
      (Sid.mk none SID_NAME_USE.SidTypeUnknown) (Or.inl rfl)⟩

/-- C4: constructing a Sid from an empty or unresolvable account name, or
from a null or invalid (unresolvable) token handle, yields an object with
`is_valid() = false` on which `is_group()` and `is_user()` both return
false; construction and the queries are total functions, so no exception
is raised. -/
theorem C4_invalid_by_construction
    (lookup : List Nat → Option (TOKEN_USER × SID_NAME_USE))
    (tlookup : Nat → Option (TOKEN_USER × SID_NAME_USE)) :
    (∀ name, name = [] ∨ lookup name = none →
        (Sid.fromAccountName lookup name).is_valid = false
        ∧ (Sid.fromAccountName lookup name).is_group = false
        ∧ (Sid.fromAccountName lookup name).is_user = false)
    ∧ (∀ handle, handle = NULL ∨ tlookup handle = none →
        (Sid.fromToken tlookup handle).is_valid = false
        ∧ (Sid.fromToken tlookup handle).is_group = false
        ∧ (Sid.fromToken tlookup handle).is_user = false) := by
  constructor
  · intro name h
    have hs : Sid.fromAccountName lookup name
        = ⟨none, SID_NAME_USE.SidTypeUnknown⟩ := by
      rcases h with h | h
      · simp [Sid.fromAccountName, h]
      · by_cases hn : name = []
        · simp [Sid.fromAccountName, hn]
        · simp [Sid.fromAccountName, hn, h]
    rw [hs]
    exact ⟨rfl, rfl, rfl⟩
  · intro handle h
    have hs : Sid.fromToken tlookup handle
        = ⟨none, SID_NAME_USE.SidTypeUnknown⟩ := by
      rcases h with h | h
      · simp [Sid.fromToken, h]
      · by_cases hn : handle = NULL
        · simp [Sid.fromToken, hn]
        · simp [Sid.fromToken, hn, h]
    rw [hs]
    exact ⟨rfl, rfl, rfl⟩

/-- Witness for C4 with a platform lookup that resolves nothing: the Sid
built from the empty account name and the Sid built from the null token
handle are invalid and neither group nor user. -/
theorem C4_invalid_by_construction_witness :
    ((Sid.fromAccountName (fun _ => none) []).is_valid = false
      ∧ (Sid.fromAccountName (fun _ => none) []).is_group = false
      ∧ (Sid.fromAccountName (fun _ => none) []).is_user = false)
    ∧ ((Sid.fromToken (fun _ => none) 0).is_valid = false
      ∧ (Sid.fromToken (fun _ => none) 0).is_group = false
      ∧ (Sid.fromToken (fun _ => none) 0).is_user = false) :=
  ⟨(C4_invalid_by_construction (fun _ => none) (fun _ => none)).1 []
      (Or.inl rfl),
   (C4_invalid_by_construction (fun _ => none) (fun _ => none)).2 0
      (Or.inl rfl)⟩

/-- C6: when no principal name was resolved the constructed UPN has
`is_valid() = false` and `as_blob()` of zero length; for every UPN,
`is_valid()` is true exactly when the stored length is nonzero, and in
that case `as_blob()` is the view of that nonzero length over the stored
UTF-8 buffer. -/
theorem C6_upn_validity (buf : Nat) (u : UPN) :
    ((UPN.construct buf none).is_valid = false
      ∧ (UPN.construct buf none).as_blob.len = 0)
    ∧ (u.is_valid = true ↔ u.m_len ≠ 0)
    ∧ (u.m_len ≠ 0 →
        u.as_blob.len = u.m_len ∧ u.as_blob.ptr = u.m_buf) := by
  refine ⟨⟨rfl, rfl⟩, ?_, ?_⟩
  · simp [UPN.is_valid, Nat.pos_iff_ne_zero]
  · intro h
    simp [UPN.as_blob, h, Blob.len, Blob.ptr, Blob.ofPtrLen]

/-- Witness for C6: a UPN whose name resolved to the three bytes
[97, 98, 99] at buffer address 5 exposes a blob of length 3 based at 5;
an unresolved UPN is invalid with an empty blob. -/
theorem C6_upn_validity_witness :
    ((UPN.construct 5 none).is_valid = false
      ∧ (UPN.construct 5 none).as_blob.len = 0)
    ∧ ((UPN.construct 5 (some [97, 98, 99])).as_blob.len = 3
      ∧ (UPN.construct 5 (some [97, 98, 99])).as_blob.ptr = 5) :=
  ⟨(C6_upn_validity 5 (UPN.construct 5 (some [97, 98, 99]))).1,
   (C6_upn_validity 5 (UPN.construct 5 (some [97, 98, 99]))).2.2
      (by decide)⟩

/-- C3: the Connection error code is sticky: it starts at zero, `error()`
returns the stored code, a failing write or read makes it nonzero, no
write or read ever resets it to zero, and with a nonzero code every
subsequent write or read fails immediately without performing transport
I/O (the third component of the result is the I/O flag). -/
theorem C3_sticky_error (vio : Nat) (c : Connection) (tr : Int)
    (rr : Option Blob) :
    ((Connection.construct vio).m_error = 0)
    ∧ (Connection.error c = c.m_error)
    ∧ (c.m_error = 0 → tr ≠ 0 →
        (c.write tr).1 ≠ 0 ∧ (c.write tr).2.1.m_error ≠ 0)
    ∧ (c.m_error = 0 → rr = none → (c.read rr).2.1.m_error ≠ 0)
    ∧ (c.m_error ≠ 0 →
        (c.write tr).2.1.m_error = c.m_error
        ∧ (c.write tr).1 = c.m_error
        ∧ (c.write tr).2.2 = false)
    ∧ (c.m_error ≠ 0 →
        (c.read rr).2.1.m_error = c.m_error
        ∧ (c.read rr).2.2 = false)
    ∧ ((c.write tr).2.1.m_error = 0 → c.m_error = 0)
    ∧ ((c.read rr).2.1.m_error = 0 → c.m_error = 0) := by
  refine ⟨rfl, rfl, ?_, ?_, ?_, ?_, ?_, ?_⟩
  · intro h0 htr
    simp [Connection.write, h0, htr]
  · intro h0 hr
    simp [Connection.read, h0, hr]
  · intro h
    simp [Connection.write, h]
  · intro h
    simp [Connection.read, h]
  · intro h
    by_cases h0 : c.m_error = 0
    · exact h0
    · simp [Connection.write, h0] at h
  · intro h
    by_cases h0 : c.m_error = 0
    · exact h0
    · simp [Connection.read, h0] at h

/-- Witness for C3 on a fresh connection whose first write hits a
transport failure with code 5: the call reports failure, the sticky error
becomes nonzero, and the following read performs no transport I/O. -/
theorem C3_sticky_error_witness :
    (((Connection.construct 1).write 5).1 ≠ 0
      ∧ ((Connection.construct 1).write 5).2.1.m_error ≠ 0)
    ∧ ((((Connection.construct 1).write 5).2.1.read (some Blob.default)).2.2
        = false) :=
  ⟨(C3_sticky_error 1 (Connection.construct 1) 5 none).2.2.1 rfl (by decide),
   ((C3_sticky_error 1 ((Connection.construct 1).write 5).2.1 0
      (some Blob.default)).2.2.2.2.2.1 (by decide)).2⟩

/-- C2: the handshake session reaches `Completed` only from `InProgress`
on the event in which the negotiation primitive reports success and the
resolved peer identity equals the expected identity; a fatal negotiation
error, a channel error, or a failed identity check leads to `Failed`; and
the terminal states `Completed` and `Failed` are absorbing. -/
theorem C2_handshake_state_machine :
    (∀ s e, s ≠ HState.Completed → hstep s e = HState.Completed →
        s = HState.InProgress ∧ e = HEvent.primDone true)
    ∧ (∀ e, hstep HState.Completed e = HState.Completed)
    ∧ (∀ e, hstep HState.Failed e = HState.Failed)
    ∧ (hstep HState.InProgress HEvent.primFatal = HState.Failed
      ∧ hstep HState.InProgress HEvent.chanError = HState.Failed
      ∧ hstep HState.InProgress (HEvent.primDone false) = HState.Failed) := by
  refine ⟨?_, ?_, ?_, rfl, rfl, rfl⟩
  · intro s e hs h
    cases s with
    | Completed => exact absurd rfl hs
    | NotStarted =>
        cases e <;> first
          | (rename_i b; cases b <;> exact absurd h (by decide))
          | exact absurd h (by decide)
    | Failed =>
        cases e <;> first
          | (rename_i b; cases b <;> exact absurd h (by decide))
          | exact absurd h (by decide)
    | InProgress =>
        cases e with
        | primDone b =>
            cases b
            · exact absurd h (by decide)
            · exact ⟨rfl, rfl⟩
        | start => exact absurd h (by decide)
        | primContinue => exact absurd h (by decide)
        | primFatal => exact absurd h (by decide)
        | chanError => exact absurd h (by decide)
  · intro e
    cases e <;> rfl
  · intro e
    cases e <;> rfl

/-- Witness for C2: applying the characterisation at the completing
transition itself. -/
theorem C2_handshake_state_machine_witness :
    HState.InProgress = HState.InProgress
    ∧ HEvent.primDone true = HEvent.primDone true :=
  C2_handshake_state_machine.1 HState.InProgress (HEvent.primDone true)
    (by decide) rfl

/-- C7: for a negotiation primitive that reports continue exactly k times
and then done, the handshake loop reaches the identity check after
performing exactly k outbound/inbound exchanges (2k channel operations);
for k = 0 it performs no channel operations at all, so nothing is
exchanged beyond the initial principal-name message sent before the
loop. -/
theorem C7_exchange_count (k : Nat) (rest : List NegStatus) :
    (handshakeLoop
        (List.replicate k NegStatus.sspiContinue
          ++ NegStatus.sspiDone :: rest)).2 = true
    ∧ (handshakeLoop
        (List.replicate k NegStatus.sspiContinue
          ++ NegStatus.sspiDone :: rest)).1.length = 2 * k
    ∧ (k = 0 →
        (handshakeLoop
          (List.replicate k NegStatus.sspiContinue
            ++ NegStatus.sspiDone :: rest)).1 = []) := by
  induction k with
  | zero => exact ⟨rfl, rfl, fun _ => rfl⟩
  | succ n ih =>
      refine ⟨?_, ?_, fun h => absurd h (Nat.succ_ne_zero n)⟩
      · rw [List.replicate_succ, List.cons_append]
        simpa [handshakeLoop] using ih.1
      · rw [List.replicate_succ, List.cons_append]
        simp only [handshakeLoop, List.length_cons]
        rw [ih.2.1]
        ring

/-- Witness for C7 at k = 1 and k = 0: one continue report yields two
channel operations (one write, one read) before the identity check is
reached; immediate completion yields none. -/
theorem C7_exchange_count_witness :
    (handshakeLoop [NegStatus.sspiContinue, NegStatus.sspiDone]).1.length
        = 2 * 1
    ∧ (handshakeLoop [NegStatus.sspiDone]).1 = [] :=
  ⟨(C7_exchange_count 1 []).2.1, (C7_exchange_count 0 []).2.2 rfl⟩
